import Mathlib

/-
Verification of the warung-pos QRIS payment lifecycle and order bookkeeping.

The development shallowly embeds the relevant parts of the repository:

* supabase/functions/check-payment-status/index.ts — gateway status
  normalization and the status-read handler;
* supabase/functions/create-qris-payment/index.ts — the DOKU payment
  creation handler (its response shape and its write set);
* supabase/functions/midtrans-webhook/index.ts — the webhook receiver over
  the payment_notifications table (append-only: the migration
  20251221110242 declares a random-uuid primary key and no uniqueness
  constraint, so every successful insert appends a row);
* the doku-webhook status mapping (the related document appended to
  create-qris-payment/index.ts);
* src/components/pos/QrisPaymentDialog.tsx — the client-side polling state
  machine that invokes the order-completion callback (onPaymentSuccess,
  which prints the receipt and records the order);
* the useOrders hook (src/unnamed/part_001) — createOrder and getTodayStats.

Effectful TypeScript is modelled by explicit state passing: database tables
become lists of rows, HTTP handlers become functions from a parsed request
plus the outcome of their external calls to a response and a write set, and
the React dialog becomes a transition system.  JavaScript runs each
continuation between awaits atomically on a single event loop, so the
interleaved model (pollStep / pollRun) has one event per atomic segment:
issuing a status request, and processing one response.
-/

namespace WarungPos

/-! ## Status normalization (check-payment-status/index.ts, lines 41-53) -/

/-- Provider statuses the Midtrans status check treats as success
(check-payment-status/index.ts line 42). -/
def successStatuses : List String := ["settlement", "capture", "accept"]

/-- Provider statuses treated as pending (line 43). -/
def pendingStatuses : List String := ["pending", "authorize"]

/-- Provider statuses treated as failed (line 44); note that expire is in
this list. -/
def failedStatuses : List String := ["deny", "cancel", "expire", "failure"]

/-- Normalization of a Midtrans transaction_status into the canonical
status returned by check-payment-status (lines 46-53): success, pending,
failed, with unknown as the fallback. -/
def normalizeStatus (ts : String) : String :=
  if successStatuses.contains ts then "success"
  else if pendingStatuses.contains ts then "pending"
  else if failedStatuses.contains ts then "failed"
  else "unknown"

/-- DOKU webhook status mapping (doku-webhook handler, lines 200-206 of the
create-qris-payment source file): SUCCESS and PAID map to settlement,
FAILED and EXPIRED map to failed, and everything else keeps the initial
value pending. -/
def dokuMapStatus (ts : String) : String :=
  if ts = "SUCCESS" ∨ ts = "PAID" then "settlement"
  else if ts = "FAILED" ∨ ts = "EXPIRED" then "failed"
  else "pending"

/-! ## Status read (check-payment-status/index.ts, lines 12-69)

The handler parses order_id, queries the gateway for the transaction
status and returns its normalization.  The repository stores no payment
intent row, and the handler never consults a local clock or an expiry
timestamp; the model carries the wall-clock time and the expiry of the
displayed QR as extra fields precisely to record that the result does not
depend on them. -/

/-- Inputs relevant to one status read: what the gateway reported, the
current time, and the expiry attached to the QR being displayed. -/
structure StatusReadRequest where
  gatewayTransactionStatus : String
  nowMs : Int
  expiresAtMs : Int
deriving DecidableEq

/-- The status-read handler returns the normalization of the
gateway-reported status; no field other than the gateway status is read. -/
def checkPaymentStatusRead (r : StatusReadRequest) : String :=
  normalizeStatus r.gatewayTransactionStatus

/-! ## Payment creation (create-qris-payment/index.ts, lines 48-175)

The handler builds a DOKU request, calls the gateway, and either returns a
success body (HTTP 200) or throws into the catch handler (HTTP 500 with an
error message).  The file imports no database client and contains no
insert or update call, so the write set of every execution is empty; the
model records the write set explicitly so that this can be stated. -/

/-- Outcome of the gateway call as seen by the handler. -/
structure GatewayResult where
  ok : Bool
  qrContent : Option String
  expiredDate : Option String
  errMessage : Option String
deriving DecidableEq

/-- Shape of a payment-intent row, as the specification describes it.  The
handler would have to write such a row for the spec to hold; the model
tracks the list of rows it actually writes. -/
structure PaymentIntentRow where
  orderId : String
  status : String
deriving DecidableEq

/-- Response body of create-qris-payment. -/
inductive CreateQrisBody where
  | success (orderId : String) (qrString : Option String)
      (transactionStatus : String) (expiryTime : String)
  | failed (message : String)
deriving DecidableEq

/-- Full result of one create-qris-payment execution: HTTP status, body,
and the set of payment-intent rows persisted during the call. -/
structure CreateQrisResult where
  httpStatus : Nat
  body : CreateQrisBody
  persistedIntents : List PaymentIntentRow
deriving DecidableEq

/-- The create-qris-payment handler.  On a gateway success (response.ok) it
returns 200 with the QR payload, transaction_status pending and the expiry
(lines 148-163); on a gateway error it throws, landing in the catch
handler which returns 500 with the error message (lines 138-141 and
164-175).  Neither path performs any persistence. -/
def createQrisPayment (orderId : String) (g : GatewayResult)
    (fallbackExpiry : String) : CreateQrisResult :=
  if g.ok then
    { httpStatus := 200
      body := CreateQrisBody.success orderId g.qrContent "pending"
        (g.expiredDate.getD fallbackExpiry)
      persistedIntents := [] }
  else
    { httpStatus := 500
      body := CreateQrisBody.failed
        (g.errMessage.getD "Failed to create QRIS payment")
      persistedIntents := [] }

/-! ## Webhook receiver (midtrans-webhook/index.ts, lines 8-94)

Parsed POST deliveries with a success transaction_status are inserted into
payment_notifications; other statuses are skipped with a 200.  The
migration creating payment_notifications has a gen_random_uuid primary key
and no unique constraint, so the insert appends unconditionally. -/

/-- Fields of a parsed Midtrans webhook payload used by the handler. -/
structure MidtransPayload where
  orderId : String
  transactionId : String
  transactionStatus : String
  grossAmount : Int
deriving DecidableEq

/-- Row of the payment_notifications table as inserted by the handler
(lines 41-53). -/
structure PaymentNotificationRow where
  orderId : String
  transactionId : String
  transactionStatus : String
  grossAmount : Int
  isRead : Bool
deriving DecidableEq

/-- Row built from a payload by the insert at lines 43-53. -/
def mkPaymentNotification (p : MidtransPayload) : PaymentNotificationRow :=
  { orderId := p.orderId
    transactionId := p.transactionId
    transactionStatus := p.transactionStatus
    grossAmount := p.grossAmount
    isRead := false }

/-- Effect of one parsed webhook delivery on the persisted
payment_notifications state, together with the HTTP status returned when
the insert succeeds: success statuses append one row (no deduplication);
all other statuses are skipped; both return 200. -/
def midtransWebhookReceive (db : List PaymentNotificationRow)
    (p : MidtransPayload) : List PaymentNotificationRow × Nat :=
  if successStatuses.contains p.transactionStatus then
    (db ++ [mkPaymentNotification p], 200)
  else
    (db, 200)

/-- Outcome of parsing the request body (req.json at line 21). -/
inductive ParseOutcome where
  | parsed (p : MidtransPayload)
  | unparseable
deriving DecidableEq

/-- Outcome of the payment_notifications insert. -/
inductive InsertOutcome where
  | inserted
  | dbError
deriving DecidableEq

/-- Transport-level behaviour of the midtrans-webhook POST handler: the
pair (HTTP status, whether a notification row was recorded).  An
unparseable body throws out of req.json into the catch handler, which
returns 500 (lines 83-93).  A parsed success-status payload whose insert
fails throws at lines 57-60, also landing in the 500 catch handler.  A
successful insert, or a skipped non-success status, returns 200. -/
def midtransWebhookRespond (req : ParseOutcome) (ins : InsertOutcome) :
    Nat × Bool :=
  match req with
  | ParseOutcome.unparseable => (500, false)
  | ParseOutcome.parsed p =>
    if successStatuses.contains p.transactionStatus then
      match ins with
      | InsertOutcome.inserted => (200, true)
      | InsertOutcome.dbError => (500, false)
    else (200, false)

/-! ## Client polling state machine (QrisPaymentDialog.tsx)

The dialog holds the component state relevant to payment completion: the
open flag, whether a QR was generated (qrisData.success), the displayed
payment status, and — for the verification — the number of times the
onPaymentSuccess callback has fired.  onPaymentSuccess is the
order-completion side effect: the parent handler (handleQrisPaymentSuccess
in the checkout component) prints the receipt and records the completed
order each time it is invoked.

checkPaymentStatus (lines 107-142) issues a gateway status request and, on
the response, stores the status and — when it is settlement or capture —
invokes onPaymentSuccess and onClose.  The response-processing code has no
guard on the current state.  Polling is driven by an interval effect
(lines 178-186) that only runs while the dialog is open, a QR exists and
the displayed status is pending, plus a manual button rendered under the
same conditions; a request already in flight when the interval is cleared
still has its continuation run when it resolves. -/

/-- Client-side payment status vocabulary of the dialog (line 28). -/
inductive PStatus where
  | pending
  | settlement
  | capture
  | expire
  | cancel
  | deny
  | failure
  | error
deriving DecidableEq

/-- Component state of QrisPaymentDialog, extended with the count of
onPaymentSuccess invocations and the number of status requests in
flight. -/
structure QrisDialogState where
  isOpen : Bool
  qrisSuccess : Bool
  paymentStatus : PStatus
  finalizeCount : Nat
  inFlight : Nat
deriving DecidableEq

/-- Processing of one status response by checkPaymentStatus (lines
124-136): store the status; on settlement or capture additionally invoke
onPaymentSuccess (count one completion) and onClose (close the dialog).
No other branch changes anything beyond the stored status. -/
def processStatusResponse (s : QrisDialogState) (ts : PStatus) :
    QrisDialogState :=
  let s1 := { s with paymentStatus := ts }
  if ts = PStatus.settlement ∨ ts = PStatus.capture then
    { s1 with finalizeCount := s1.finalizeCount + 1, isOpen := false }
  else s1

/-- Guard under which a new status check can be issued (the interval
effect at line 179 and the manual button at lines 292-305): dialog open,
QR generated, displayed status still pending. -/
def canPoll (s : QrisDialogState) : Bool :=
  s.isOpen && s.qrisSuccess && decide (s.paymentStatus = PStatus.pending)

/-- Atomic event-loop segments of the polling client: issuing one status
request (an interval tick calling checkPaymentStatus) and processing one
resolved response. -/
inductive PollEvent where
  | issue
  | respond (ts : PStatus)

/-- One atomic step of the interleaved model.  Issuing is guarded by
canPoll; a response is processed whenever a request is in flight — the
continuation of checkPaymentStatus runs unconditionally once its fetch
resolves, even if the state changed while it was in flight. -/
def pollStep (s : QrisDialogState) : PollEvent → QrisDialogState
  | PollEvent.issue =>
    if canPoll s then { s with inFlight := s.inFlight + 1 } else s
  | PollEvent.respond ts =>
    if 0 < s.inFlight then
      processStatusResponse { s with inFlight := s.inFlight - 1 } ts
    else s

/-- Run of the interleaved model over a list of events. -/
def pollRun (s : QrisDialogState) (evs : List PollEvent) : QrisDialogState :=
  evs.foldl pollStep s

/-- Sequential delivery: each status observation is processed to completion
before the next poll is issued, so an observation is delivered only while
the polling guard holds (otherwise no request is made and the observation
never reaches the handler). -/
def seqDeliver (s : QrisDialogState) : List PStatus → QrisDialogState
  | [] => s
  | ts :: rest =>
    if canPoll s then seqDeliver (processStatusResponse s ts) rest
    else seqDeliver s rest

/-- Dialog state right after a successful QR generation: open, QR present,
status pending, nothing finalized, no request in flight. -/
def qrisInit : QrisDialogState :=
  { isOpen := true
    qrisSuccess := true
    paymentStatus := PStatus.pending
    finalizeCount := 0
    inFlight := 0 }

/-! ## Orders hook (src/unnamed/part_001): createOrder and getTodayStats -/

/-- Projection of an orders row onto the fields getTodayStats reads. -/
structure TodayOrder where
  status : String
  payment_method : String
  total : Int
deriving DecidableEq

/-- Result record of getTodayStats (lines 171-177). -/
structure TodayStats where
  totalOrders : Nat
  totalRevenue : Int
  cashRevenue : Int
  transferRevenue : Int
  qrisRevenue : Int
deriving DecidableEq

/-- getTodayStats (lines 158-178): filter todayOrders to completed, count
them, sum their totals, and sum per payment method. -/
def getTodayStats (todayOrders : List TodayOrder) : TodayStats :=
  let completedOrders := todayOrders.filter (fun o => o.status == "completed")
  { totalOrders := completedOrders.length
    totalRevenue := (completedOrders.map (fun o => o.total)).sum
    cashRevenue :=
      ((completedOrders.filter (fun o => o.payment_method == "cash")).map
        (fun o => o.total)).sum
    transferRevenue :=
      ((completedOrders.filter (fun o => o.payment_method == "transfer")).map
        (fun o => o.total)).sum
    qrisRevenue :=
      ((completedOrders.filter (fun o => o.payment_method == "qris")).map
        (fun o => o.total)).sum }

/-- Cart item fields used by createOrder. -/
structure CreateOrderCartItem where
  price : Int
  quantity : Int
deriving DecidableEq

/-- Orders row as inserted by createOrder (lines 90-108). -/
structure OrderInsertRow where
  table_id : Option String
  status : String
  subtotal : Int
  discount : Int
  total : Int
  payment_method : String
  amount_paid : Int
  change_amount : Int
  completed_at : Option String
deriving DecidableEq

/-- Update applied to restaurant_tables when a table was selected (lines
129-134). -/
structure RestaurantTableUpdate where
  id : String
  status : String
  current_order_id : Option String
deriving DecidableEq

/-- createOrder (lines 73-156): computes subtotal as the sum of
price times quantity over the cart, total as subtotal minus discount and
change as amountPaid minus total, inserts exactly one orders row with
status completed and completed_at set to the current time, and — when a
tableId is supplied — sets that table back to available with
current_order_id cleared.  (Order items, the notification call and the
refetch carry no order-state content and are omitted.) -/
def createOrder (cart : List CreateOrderCartItem) (tableId : Option String)
    (paymentMethod : String) (amountPaid : Int) (discount : Int)
    (nowIso : String) : OrderInsertRow × List RestaurantTableUpdate :=
  let subtotal := (cart.map (fun i => i.price * i.quantity)).sum
  let total := subtotal - discount
  let changeAmount := amountPaid - total
  ({ table_id := tableId
     status := "completed"
     subtotal := subtotal
     discount := discount
     total := total
     payment_method := paymentMethod
     amount_paid := amountPaid
     change_amount := changeAmount
     completed_at := some nowIso },
   match tableId with
   | some tid => [{ id := tid, status := "available", current_order_id := none }]
   | none => [])

/-! ## Concrete inputs used by counterexamples and witnesses -/

/-- A parsed settlement webhook payload (the duplicate-delivery scenario of
the specification, order O1, amount 50000). -/
def settlementPayload : MidtransPayload :=
  { orderId := "ORDER-O1"
    transactionId := "TX-1"
    transactionStatus := "settlement"
    grossAmount := 50000 }

/-- A successful gateway result for payment creation. -/
def gatewayOk : GatewayResult :=
  { ok := true
    qrContent := some "QR-DATA"
    expiredDate := some "2025-12-26T01:00:00Z"
    errMessage := none }

/-- A failed gateway result for payment creation. -/
def gatewayFailed : GatewayResult :=
  { ok := false
    qrContent := none
    expiredDate := none
    errMessage := some "invalid_client_id" }

/-- A status read performed after the displayed expiry has passed while
the gateway still reports pending. -/
def latePendingRead : StatusReadRequest :=
  { gatewayTransactionStatus := "pending"
    nowMs := 2000
    expiresAtMs := 1000 }

/-- A status read after expiry where the gateway itself reports expire. -/
def lateExpireRead : StatusReadRequest :=
  { gatewayTransactionStatus := "expire"
    nowMs := 2000
    expiresAtMs := 1000 }

/-- A concrete list of orders of the day: three completed (one per payment
method) and one pending. -/
def sampleTodayOrders : List TodayOrder :=
  [ { status := "completed", payment_method := "cash", total := 20000 },
    { status := "completed", payment_method := "qris", total := 35000 },
    { status := "pending", payment_method := "cash", total := 1000 },
    { status := "completed", payment_method := "transfer", total := 5000 } ]

/-- A concrete cart: two items at 15000 and one at 5000. -/
def sampleCart : List CreateOrderCartItem :=
  [ { price := 15000, quantity := 2 }, { price := 5000, quantity := 1 } ]

/-- Dialog state whose displayed status has reached the terminal expire. -/
def expiredDialogState : QrisDialogState :=
  { isOpen := true
    qrisSuccess := true
    paymentStatus := PStatus.expire
    finalizeCount := 0
    inFlight := 0 }

end WarungPos

namespace WarungPos

/-! ## Helper lemmas -/

/-- Sequential delivery is inert when the polling guard fails: no request
is issued, so no observation is ever processed. -/
theorem seqDeliver_of_not_canPoll (l : List PStatus) (s : QrisDialogState)
    (h : canPoll s = false) : seqDeliver s l = s := by
  induction l with
  | nil => rfl
  | cons t rest ih => simp [seqDeliver, h, ih]

/-- Summing totals over the cash, transfer and qris filters partitions the
total sum when every payment method is one of the three. -/
theorem sum_filter_partition (l : List TodayOrder)
    (h : ∀ o ∈ l, o.payment_method = "cash" ∨ o.payment_method = "transfer"
      ∨ o.payment_method = "qris") :
    ((l.filter (fun o => o.payment_method == "cash")).map
      (fun o => o.total)).sum
    + ((l.filter (fun o => o.payment_method == "transfer")).map
      (fun o => o.total)).sum
    + ((l.filter (fun o => o.payment_method == "qris")).map
      (fun o => o.total)).sum
    = (l.map (fun o => o.total)).sum := by
  induction l with
  | nil => simp
  | cons o t ih =>
    have ht : ∀ x ∈ t, x.payment_method = "cash" ∨ x.payment_method = "transfer"
        ∨ x.payment_method = "qris" := fun x hx => h x (List.mem_cons_of_mem o hx)
    have hrec := ih ht
    have ho := h o (List.mem_cons_self o t)
    rcases ho with hc | hc | hc <;>
      simp [List.filter_cons, hc, List.sum_cons] <;>
      linarith [hrec]

/-! ## Claim C1 -/

/-- Claim C1, counterexample to the claim as stated: two status requests
are issued while payment is still pending (the 5-second interval fires
again while the first request is in flight; nothing in checkPaymentStatus
re-checks the state when a response arrives), both resolve with
settlement, and the order-completion callback onPaymentSuccess — which
prints the receipt and records the completed order — fires twice.  A
sequence of two settlement observations thus performs the completion side
effect twice, not exactly once. -/
theorem C1_counterexample :
    (pollRun qrisInit [PollEvent.issue, PollEvent.issue,
      PollEvent.respond PStatus.settlement,
      PollEvent.respond PStatus.settlement]).finalizeCount = 2 ∧
    (pollRun qrisInit [PollEvent.issue, PollEvent.issue,
      PollEvent.respond PStatus.settlement,
      PollEvent.respond PStatus.settlement]).finalizeCount ≠ 1 := by
  decide

/-- Claim C1, amended: when status observations are processed sequentially
— each poll response applied before the next poll is issued — every
nonempty sequence of settlement (or capture) observations performs the
order-completion side effect exactly once: the first settlement closes the
dialog and stops the polling guard, so no later observation is ever
delivered.  Only overlapping in-flight polls (the counterexample) break
exactly-once. -/
theorem C1_sequential_settlement_completes_once (l : List PStatus)
    (hne : l ≠ [])
    (hall : ∀ t ∈ l, t = PStatus.settlement ∨ t = PStatus.capture) :
    (seqDeliver qrisInit l).finalizeCount = 1 := by
  cases l with
  | nil => exact absurd rfl hne
  | cons t rest =>
    rcases hall t (List.mem_cons_self t rest) with h | h
    · subst h
      have h1 : seqDeliver qrisInit (PStatus.settlement :: rest)
          = seqDeliver (processStatusResponse qrisInit PStatus.settlement) rest := rfl
      rw [h1, seqDeliver_of_not_canPoll rest _ (by decide)]
      decide
    · subst h
      have h1 : seqDeliver qrisInit (PStatus.capture :: rest)
          = seqDeliver (processStatusResponse qrisInit PStatus.capture) rest := rfl
      rw [h1, seqDeliver_of_not_canPoll rest _ (by decide)]
      decide

/-- Claim C1, witness: a duplicate settlement observation delivered
sequentially still completes the order exactly once. -/
theorem C1_sequential_settlement_completes_once_witness :
    (seqDeliver qrisInit [PStatus.settlement, PStatus.settlement]).finalizeCount = 1 :=
  C1_sequential_settlement_completes_once
    [PStatus.settlement, PStatus.settlement] (by decide) (by decide)

/-! ## Claim C2 -/

/-- Claim C2, counterexample to the claim as stated: delivering the same
logical settlement webhook twice is not a no-op — the payment_notifications
table has no uniqueness constraint and the handler inserts
unconditionally, so the second delivery appends a second row and the
persisted state differs from the state after the first delivery. -/
theorem C2_counterexample :
    ((midtransWebhookReceive (midtransWebhookReceive [] settlementPayload).1
        settlementPayload).1).length = 2 ∧
    (midtransWebhookReceive (midtransWebhookReceive [] settlementPayload).1
        settlementPayload).1
      ≠ (midtransWebhookReceive [] settlementPayload).1 := by
  decide

/-- Claim C2, amended: the webhook receiver is not idempotent — every
delivery whose transaction_status is a success status appends exactly one
payment_notifications row, so receiving the same logical event twice
leaves two identical rows (the second delivery does persist an additional
StatusEvidence record). -/
theorem C2_webhook_appends_per_delivery (db : List PaymentNotificationRow)
    (p : MidtransPayload)
    (h : p.transactionStatus ∈ successStatuses) :
    (midtransWebhookReceive db p).1 = db ++ [mkPaymentNotification p] ∧
    ((midtransWebhookReceive (midtransWebhookReceive db p).1 p).1).length
      = db.length + 2 := by
  constructor
  · simp [midtransWebhookReceive, h]
  · simp [midtransWebhookReceive, h]

/-- Claim C2, witness: two deliveries of the settlement payload for order
O1 starting from an empty table leave two rows. -/
theorem C2_webhook_appends_per_delivery_witness :
    (midtransWebhookReceive [] settlementPayload).1
      = [] ++ [mkPaymentNotification settlementPayload] ∧
    ((midtransWebhookReceive (midtransWebhookReceive [] settlementPayload).1
        settlementPayload).1).length = 2 :=
  C2_webhook_appends_per_delivery [] settlementPayload (by decide)

/-! ## Claim C3 -/

/-- Claim C3, counterexample to the claim as stated: with two status
requests in flight, the first response (expire) puts the intent in the
terminal expire state with no completion fired, and the second response
(settlement) — processed unconditionally by the checkPaymentStatus
continuation — moves the status out of terminal expire to settlement and
invokes the order finalizer. -/
theorem C3_counterexample :
    (pollRun qrisInit [PollEvent.issue, PollEvent.issue,
      PollEvent.respond PStatus.expire]).paymentStatus = PStatus.expire ∧
    (pollRun qrisInit [PollEvent.issue, PollEvent.issue,
      PollEvent.respond PStatus.expire]).finalizeCount = 0 ∧
    (pollRun qrisInit [PollEvent.issue, PollEvent.issue,
      PollEvent.respond PStatus.expire,
      PollEvent.respond PStatus.settlement]).paymentStatus
        = PStatus.settlement ∧
    (pollRun qrisInit [PollEvent.issue, PollEvent.issue,
      PollEvent.respond PStatus.expire,
      PollEvent.respond PStatus.settlement]).finalizeCount = 1 := by
  decide

/-- Claim C3, amended: under sequential delivery, once the displayed
status has left pending (in particular once it is terminal expire) the
polling guard fails, so no further evidence is ever delivered: the whole
dialog state — status and completion count alike — is unchanged by any
sequence of later observations, including Settled evidence.  Only a
response already in flight (the counterexample) can overwrite a terminal
state and invoke the finalizer. -/
theorem C3_terminal_state_frozen (s : QrisDialogState) (l : List PStatus)
    (h : s.paymentStatus ≠ PStatus.pending) :
    seqDeliver s l = s := by
  apply seqDeliver_of_not_canPoll
  simp [canPoll, h]

/-- Claim C3, witness: Settled evidence arriving sequentially for a dialog
already in terminal expire changes nothing and fires no completion. -/
theorem C3_terminal_state_frozen_witness :
    seqDeliver expiredDialogState [PStatus.settlement] = expiredDialogState :=
  C3_terminal_state_frozen expiredDialogState [PStatus.settlement] (by decide)

/-! ## Claim C4 -/

/-- Claim C4, counterexample to the claim as stated: the Midtrans
normalizer maps expire to failed — the same canonical value as deny and
cancel — rather than to a distinct Expired status (no Expired value exists
in the codomain), and the DOKU webhook maps an unrecognized provider
status to pending, not to an explicit Unknown fallback. -/
theorem C4_counterexample :
    normalizeStatus "expire" = "failed" ∧
    normalizeStatus "expire" = normalizeStatus "deny" ∧
    normalizeStatus "expire" ≠ "expired" ∧
    dokuMapStatus "EXPIRED" = "failed" ∧
    dokuMapStatus "SOME_NEW_STATUS" = "pending" ∧
    dokuMapStatus "SOME_NEW_STATUS" ≠ "unknown" := by
  decide

/-- Claim C4, amended: both mappings are pure total functions into closed
status sets.  The Midtrans normalizer sends settlement, capture and accept
to success, and every string outside the three recognized lists to the
explicit unknown fallback, which is never success; expire lands in failed
together with deny and cancel (no distinct Expired canonical status).  The
DOKU webhook sends SUCCESS and PAID to settlement and every unrecognized
status to pending (non-terminal, not settlement), not to an Unknown
value. -/
theorem C4_normalization_total (ts : String) :
    (normalizeStatus ts = "success" ∨ normalizeStatus ts = "pending"
      ∨ normalizeStatus ts = "failed" ∨ normalizeStatus ts = "unknown") ∧
    (normalizeStatus ts = "success" ↔ ts ∈ successStatuses) ∧
    (ts ∉ successStatuses → ts ∉ pendingStatuses → ts ∉ failedStatuses →
      normalizeStatus ts = "unknown") ∧
    (dokuMapStatus ts = "settlement" ↔ (ts = "SUCCESS" ∨ ts = "PAID")) ∧
    (ts ≠ "SUCCESS" → ts ≠ "PAID" → ts ≠ "FAILED" → ts ≠ "EXPIRED" →
      dokuMapStatus ts = "pending") := by
  unfold normalizeStatus dokuMapStatus
  refine ⟨?_, ?_, ?_, ?_, ?_⟩ <;> split_ifs <;> simp_all <;> tauto

/-- Claim C4, witness: the characterization evaluated at the provider
status expire. -/
theorem C4_normalization_total_witness :
    normalizeStatus "expire" = "success" ↔ "expire" ∈ successStatuses :=
  (C4_normalization_total "expire").2.1

/-! ## Claim C5 -/

/-- Claim C5, counterexample to the claim as stated: a successful
create-qris-payment execution returns 200 with the collection artifact,
but its write set is empty — the handler contains no database client and
persists zero PaymentIntent rows, not exactly one Pending row. -/
theorem C5_counterexample :
    (createQrisPayment "O1" gatewayOk "FALLBACK").httpStatus = 200 ∧
    (createQrisPayment "O1" gatewayOk "FALLBACK").persistedIntents.length = 0 ∧
    (createQrisPayment "O1" gatewayOk "FALLBACK").persistedIntents.length ≠ 1 := by
  decide

/-- Claim C5, amended: on gateway success, create-qris-payment returns 200
with the QR payload, transaction_status pending and the expiry, and
persists nothing at all — in particular no PaymentIntent row in Pending
state exists anywhere in the system as a result of the call. -/
theorem C5_create_success_persists_nothing (orderId : String)
    (g : GatewayResult) (fb : String) (h : g.ok = true) :
    createQrisPayment orderId g fb =
      { httpStatus := 200
        body := CreateQrisBody.success orderId g.qrContent "pending"
          (g.expiredDate.getD fb)
        persistedIntents := [] } := by
  simp [createQrisPayment, h]

/-- Claim C5, witness: the success path evaluated at a concrete gateway
result. -/
theorem C5_create_success_persists_nothing_witness :
    createQrisPayment "O1" gatewayOk "FALLBACK" =
      { httpStatus := 200
        body := CreateQrisBody.success "O1" (some "QR-DATA") "pending"
          "2025-12-26T01:00:00Z"
        persistedIntents := [] } :=
  C5_create_success_persists_nothing "O1" gatewayOk "FALLBACK" rfl

/-! ## Claim C6 -/

/-- Claim C6: if the gateway call fails, create-qris-payment throws into
its catch handler, which returns an error response (HTTP 500 carrying the
error message) and persists nothing: no PaymentIntent row — Pending or
otherwise — is created on the failure path. -/
theorem C6_gateway_error_persists_nothing (orderId : String)
    (g : GatewayResult) (fb : String) (h : g.ok = false) :
    (createQrisPayment orderId g fb).httpStatus = 500 ∧
    (createQrisPayment orderId g fb).body
      = CreateQrisBody.failed (g.errMessage.getD "Failed to create QRIS payment") ∧
    (createQrisPayment orderId g fb).persistedIntents = [] := by
  simp [createQrisPayment, h]

/-- Claim C6, witness: the failure path evaluated at a concrete failed
gateway result. -/
theorem C6_gateway_error_persists_nothing_witness :
    (createQrisPayment "O1" gatewayFailed "FALLBACK").httpStatus = 500 ∧
    (createQrisPayment "O1" gatewayFailed "FALLBACK").body
      = CreateQrisBody.failed "invalid_client_id" ∧
    (createQrisPayment "O1" gatewayFailed "FALLBACK").persistedIntents = [] :=
  C6_gateway_error_persists_nothing "O1" gatewayFailed "FALLBACK" rfl

/-! ## Claim C7 -/

/-- Claim C7, counterexample to the claim as stated: a status read for an
intent whose expiry has passed reports whatever the gateway says, not
Expired — with the gateway still reporting pending the read returns
pending, and even when the gateway itself reports expire the read returns
failed, never a distinct Expired value. -/
theorem C7_counterexample :
    checkPaymentStatusRead latePendingRead = "pending" ∧
    checkPaymentStatusRead latePendingRead ≠ "expired" ∧
    checkPaymentStatusRead lateExpireRead = "failed" ∧
    checkPaymentStatusRead lateExpireRead ≠ "expired" := by
  decide

/-- Claim C7, amended: the status read never evaluates expiresAt locally —
its result is a function of the gateway-reported status alone, identical
for any two clock/expiry combinations — and no read ever reports a
distinct Expired status (expire from the gateway is folded into
failed). -/
theorem C7_read_ignores_expiry (gs : String) (n1 e1 n2 e2 : Int) :
    checkPaymentStatusRead ⟨gs, n1, e1⟩ = checkPaymentStatusRead ⟨gs, n2, e2⟩ ∧
    checkPaymentStatusRead ⟨gs, n1, e1⟩ ≠ "expired" := by
  constructor
  · rfl
  · unfold checkPaymentStatusRead normalizeStatus
    split_ifs <;> simp

/-- Claim C7, witness: the read of a pending gateway status is the same
before and after the expiry instant and is not Expired. -/
theorem C7_read_ignores_expiry_witness :
    checkPaymentStatusRead ⟨"pending", 2000, 1000⟩
      = checkPaymentStatusRead ⟨"pending", 0, 0⟩ ∧
    checkPaymentStatusRead ⟨"pending", 2000, 1000⟩ ≠ "expired" :=
  C7_read_ignores_expiry "pending" 2000 1000 0 0

/-! ## Claim C8 -/

/-- Claim C8, counterexample to the claim as stated: a parseable
settlement delivery whose payment_notifications insert fails is answered
with HTTP 500 — the insert error is thrown into the catch handler — not
with a 2xx acknowledgment; and an unparseable payload is also answered
with 500, not with a 4xx rejection. -/
theorem C8_counterexample :
    midtransWebhookRespond (ParseOutcome.parsed settlementPayload)
      InsertOutcome.dbError = (500, false) ∧
    (midtransWebhookRespond (ParseOutcome.parsed settlementPayload)
      InsertOutcome.dbError).1 / 100 ≠ 2 ∧
    midtransWebhookRespond ParseOutcome.unparseable
      InsertOutcome.inserted = (500, false) ∧
    (midtransWebhookRespond ParseOutcome.unparseable
      InsertOutcome.inserted).1 / 100 ≠ 4 := by
  decide

/-- Claim C8, amended: the webhook responds 200 only when processing fully
succeeds — a success-status payload whose insert works, or a non-success
status that is skipped without recording anything; both a persistence
failure and an unparseable payload surface as HTTP 500, and in both
failure cases no notification row is recorded. -/
theorem C8_webhook_transport (p : MidtransPayload) (i : InsertOutcome) :
    (p.transactionStatus ∈ successStatuses →
      midtransWebhookRespond (ParseOutcome.parsed p) InsertOutcome.inserted
        = (200, true) ∧
      midtransWebhookRespond (ParseOutcome.parsed p) InsertOutcome.dbError
        = (500, false)) ∧
    (p.transactionStatus ∉ successStatuses →
      midtransWebhookRespond (ParseOutcome.parsed p) i = (200, false)) ∧
    midtransWebhookRespond ParseOutcome.unparseable i = (500, false) := by
  refine ⟨fun h => ?_, fun h => ?_, rfl⟩
  · constructor <;> simp [midtransWebhookRespond, h]
  · cases i <;> simp [midtransWebhookRespond, h]

/-- Claim C8, witness: the transport behaviour at the concrete settlement
payload. -/
theorem C8_webhook_transport_witness :
    midtransWebhookRespond (ParseOutcome.parsed settlementPayload)
      InsertOutcome.inserted = (200, true) ∧
    midtransWebhookRespond (ParseOutcome.parsed settlementPayload)
      InsertOutcome.dbError = (500, false) :=
  (C8_webhook_transport settlementPayload InsertOutcome.inserted).1 (by decide)

/-! ## Claim C9 -/

/-- Claim C9: getTodayStats counts exactly the orders with status
completed, sums their totals as totalRevenue, and — whenever the
payment method of every completed order is cash, transfer or qris — the three
per-method revenue sums partition totalRevenue exactly. -/
theorem C9_getTodayStats_correct (orders : List TodayOrder) :
    (getTodayStats orders).totalOrders
      = (orders.filter (fun o => o.status == "completed")).length ∧
    (getTodayStats orders).totalRevenue
      = ((orders.filter (fun o => o.status == "completed")).map
          (fun o => o.total)).sum ∧
    ((∀ o ∈ orders.filter (fun o => o.status == "completed"),
        o.payment_method = "cash" ∨ o.payment_method = "transfer"
          ∨ o.payment_method = "qris") →
      (getTodayStats orders).cashRevenue + (getTodayStats orders).transferRevenue
        + (getTodayStats orders).qrisRevenue = (getTodayStats orders).totalRevenue) := by
  refine ⟨rfl, rfl, fun h => ?_⟩
  exact sum_filter_partition _ h

/-- Claim C9, witness: on the concrete order list the partition identity
holds (20000 + 5000 + 35000 = 60000). -/
theorem C9_getTodayStats_correct_witness :
    (getTodayStats sampleTodayOrders).cashRevenue
      + (getTodayStats sampleTodayOrders).transferRevenue
      + (getTodayStats sampleTodayOrders).qrisRevenue
      = (getTodayStats sampleTodayOrders).totalRevenue :=
  (C9_getTodayStats_correct sampleTodayOrders).2.2 (by decide)

/-! ## Claim C10 -/

/-- Claim C10: every orders row written by createOrder has status
completed (never pending) with completed_at set, subtotal the sum of
price times quantity over the cart, total equal to subtotal minus
discount, and change_amount equal to amountPaid minus total; when a
tableId is supplied the referenced table is set back to available with
current_order_id cleared, and no table is touched otherwise. -/
theorem C10_createOrder_correct (cart : List CreateOrderCartItem)
    (tableId : Option String) (pm : String) (amountPaid discount : Int)
    (nowIso : String) :
    (createOrder cart tableId pm amountPaid discount nowIso).1.status
      = "completed" ∧
    (createOrder cart tableId pm amountPaid discount nowIso).1.status
      ≠ "pending" ∧
    (createOrder cart tableId pm amountPaid discount nowIso).1.completed_at
      = some nowIso ∧
    (createOrder cart tableId pm amountPaid discount nowIso).1.subtotal
      = (cart.map (fun i => i.price * i.quantity)).sum ∧
    (createOrder cart tableId pm amountPaid discount nowIso).1.total
      = (createOrder cart tableId pm amountPaid discount nowIso).1.subtotal
        - discount ∧
    (createOrder cart tableId pm amountPaid discount nowIso).1.change_amount
      = amountPaid
        - (createOrder cart tableId pm amountPaid discount nowIso).1.total ∧
    (∀ tid, tableId = some tid →
      (createOrder cart tableId pm amountPaid discount nowIso).2
        = [{ id := tid, status := "available", current_order_id := none }]) ∧
    (tableId = none →
      (createOrder cart tableId pm amountPaid discount nowIso).2 = []) := by
  refine ⟨rfl, by simp [createOrder], rfl, rfl, rfl, rfl, ?_, ?_⟩
  · rintro tid rfl
    rfl
  · rintro rfl
    rfl

/-- Claim C10, witness: the order written for a concrete cash sale at
table T1 — subtotal 35000, no discount, paid 50000, change 15000, table
released. -/
theorem C10_createOrder_correct_witness :
    (createOrder sampleCart (some "T1") "cash" 50000 0 "2025-12-26T12:00:00Z").1.status
      = "completed" ∧
    (createOrder sampleCart (some "T1") "cash" 50000 0 "2025-12-26T12:00:00Z").2
      = [{ id := "T1", status := "available", current_order_id := none }] :=
  ⟨(C10_createOrder_correct sampleCart (some "T1") "cash" 50000 0
      "2025-12-26T12:00:00Z").1,
   (C10_createOrder_correct sampleCart (some "T1") "cash" 50000 0
      "2025-12-26T12:00:00Z").2.2.2.2.2.2.1 "T1" rfl⟩
end WarungPos
